import Mathlib

/-!
Shallow embedding of the lead-generation pipeline of this repository:
the email validator (validator.py), the data enricher (enricher.py),
the company scraper (scraper.py) and the lead-scoring function
(app.py, calculate_lead_score), together with proofs of the spec's
claims about them.  Python strings are modelled as `String` / `List Char`,
Python floats appearing in the heuristics as `ℚ`, dictionaries with a
fixed key set as structures with `Option` fields (a missing key is
`none`), and the network-facing sub-steps (DNS resolution, the
email-finder API, the page fetch, WHOIS) as oracle parameters, since
their results are the only thing the surrounding code observes.
-/

/-- Python `str.split(sep)` for a one-character separator:
`"a@b".split("@") = ["a","b"]`, `"".split("@") = [""]`. -/
def splitOnChar (sep : Char) : List Char → List (List Char)
  | [] => [[]]
  | c :: cs =>
    if c = sep then [] :: splitOnChar sep cs
    else
      match splitOnChar sep cs with
      | [] => [[c]]
      | h :: t => (c :: h) :: t

/-- Head-anchored pattern match: the first list is a prefix of the second. -/
def headMatches : List Char → List Char → Bool
  | [], _ => true
  | _ :: _, [] => false
  | p :: ps, t :: ts => p = t && headMatches ps ts

/-- Python `pat in text` for strings: the pattern occurs as a contiguous
segment of the text. -/
def containsSeg (pat : List Char) : List Char → Bool
  | [] => pat.isEmpty
  | t :: ts => headMatches pat (t :: ts) || containsSeg pat ts

/-- Characters the Python regexes treat as whitespace (`\s`, ASCII range),
also what `str.strip()` removes. -/
def isPySpace (c : Char) : Bool :=
  c = ' ' || c = '\t' || c = '\n' || c = '\x0d' || c = '\x0b' || c = '\x0c'

/-- Python `str.strip()`: drop leading and trailing whitespace. -/
def pyStrip (l : List Char) : List Char :=
  ((l.dropWhile isPySpace).reverse.dropWhile isPySpace).reverse

/-- Truthiness of `s.strip()`: the string has some non-whitespace character. -/
def hasNonSpace (l : List Char) : Bool :=
  l.any (fun c => !(isPySpace c))

/-- Characters admitted by the regex class `[a-zA-Z0-9._%+-]`
(local part of an email). -/
def isLocalChar (c : Char) : Bool :=
  c.isAlpha || c.isDigit || c = '.' || c = '_' || c = '%' || c = '+' || c = '-'

/-- Characters admitted by the regex class `[a-zA-Z0-9.-]`
(domain part of an email). -/
def isDomainChar (c : Char) : Bool :=
  c.isAlpha || c.isDigit || c = '.' || c = '-'

/-- Rejoin the pieces of a dot-split (inverse of `splitOnChar '.'` on the
non-final segments). -/
def joinDots : List (List Char) → List Char
  | [] => []
  | [p] => p
  | p :: ps => p ++ '.' :: joinDots ps

/-- Match of the domain side of the email regex, `[a-zA-Z0-9.-]+\.[a-zA-Z]{2,}`
anchored at both ends: only the last dot can start the final `[a-zA-Z]{2,}`
group, so the suffix after the last dot must be two or more letters and the
part before it must be a non-empty run of domain characters. -/
def domainSideOk (domain : List Char) : Bool :=
  let parts := splitOnChar '.' domain
  let tld := parts.getLastD []
  let pre := joinDots parts.dropLast
  !pre.isEmpty && pre.all isDomainChar && decide (2 ≤ tld.length) && tld.all Char.isAlpha

/-- EmailValidator.check_format: `re.match(r'^[a-zA-Z0-9._%+-]+@[a-zA-Z0-9.-]+\.[a-zA-Z]\x7b2,\x7d$', email)`.
Neither character class contains `@`, so a matching string has exactly one
`@`; the split at it gives the local and domain sides. -/
def check_format (email : String) : Bool :=
  match splitOnChar '@' email.toList with
  | [localPart, domain] => !localPart.isEmpty && localPart.all isLocalChar && domainSideOk domain
  | _ => false

/-- EmailValidator.disposable_domains. -/
def disposable_domains : List String :=
  ["tempmail.com", "guerrillamail.com", "10minutemail.com",
   "throwaway.email", "mailinator.com"]

/-- Python `email.split('@')[1] if '@' in email else ''`: the segment
between the first and second `@`, or the empty string when there is no `@`. -/
def domainOfEmail (email : String) : List Char :=
  if email.toList.contains '@' then (splitOnChar '@' email.toList).getD 1 []
  else []

/-- EmailValidator.is_disposable: the domain (as Python computes it) is in
the disposable-domain list. -/
def is_disposable (email : String) : Bool :=
  disposable_domains.any (fun d => d.toList = domainOfEmail email)

/-- Outcome of one `dns.resolver.resolve(domain, 'MX')` call, as the
try/except in validator.py distinguishes them: a record set of some size,
one of the three caught resolver errors, or any other exception. -/
inductive DnsOutcome : Type
  | records (n : Nat)
  | nxdomain
  | noAnswer
  | timeout
  | otherError
deriving DecidableEq

/-- DNS resolution modelled as an oracle from the queried domain to its
outcome. -/
def DnsOracle : Type := List Char → DnsOutcome

/-- Keys of EmailValidator.common_typos. -/
def common_typo_domains : List String :=
  ["gmial.com", "gmai.com", "yahooo.com", "outlok.com"]

/-- EmailValidator.check_mx_record: known-typo domains are rejected; then
the MX lookup runs, `NXDOMAIN`/`NoAnswer`/`Timeout` are caught and yield
`False`, and any other exception is caught by the blanket handler and
yields `True` (the handler also catches the `IndexError` of
`email.split('@')[1]` when the email has no `@`). -/
def check_mx_record (dns : DnsOracle) (email : String) : Bool :=
  match (splitOnChar '@' email.toList).get? 1 with
  | none => true
  | some domain =>
    if common_typo_domains.any (fun d => d.toList = domain) then false
    else
      match dns domain with
      | .records n => decide (0 < n)
      | .nxdomain => false
      | .noAnswer => false
      | .timeout => false
      | .otherError => true

/-- EmailValidator.validate_email: short-circuit AND of non-emptiness,
format, non-disposability and the MX check. -/
def validate_email (dns : DnsOracle) (email : String) : Bool :=
  if email.toList.isEmpty then false
  else if !check_format email then false
  else if is_disposable email then false
  else check_mx_record dns email

/-- Free-webmail domains consulted by the confidence score. -/
def business_domains : List String :=
  ["gmail.com", "outlook.com", "yahoo.com", "hotmail.com"]

/-- Python `email.split('@')[0] if '@' in email else ''`. -/
def localOfEmail (email : String) : List Char :=
  if email.toList.contains '@' then (splitOnChar '@' email.toList).getD 0 []
  else []

/-- Match of `^[a-z]+\.[a-z]+$`: a single separator splitting two non-empty
all-lowercase-letter runs (and similarly for `_`). -/
def twoRuns (sep : Char) (l : List Char) : Bool :=
  match splitOnChar sep l with
  | [a, b] => !a.isEmpty && a.all (fun c => c.isLower && c.isAlpha)
      && !b.isEmpty && b.all (fun c => c.isLower && c.isAlpha)
  | _ => false

/-- EmailValidator.is_professional_format: the lower-cased local part
matches one of `^[a-z]+\.[a-z]+$`, `^[a-z]+[a-z]$` (two or more lowercase
letters) or `^[a-z]+_[a-z]+$`. -/
def is_professional_format (email : String) : Bool :=
  let localLower := (localOfEmail email).map Char.toLower
  twoRuns '.' localLower
  || (decide (2 ≤ localLower.length) && localLower.all (fun c => c.isLower && c.isAlpha))
  || twoRuns '_' localLower

/-- EmailValidator.get_confidence_score: points-additive, capped at 100. -/
def get_confidence_score (dns : DnsOracle) (email : String) : Nat :=
  if email.toList.isEmpty then 0
  else
    min 100
      ((if check_format email then 30 else 0)
        + (if !is_disposable email then 20 else 0)
        + (if check_mx_record dns email then 30 else 0)
        + (if business_domains.any (fun d => d.toList = domainOfEmail email) then 0 else 10)
        + (if is_professional_format email then 10 else 0))

/-- Provider table of EmailValidator.get_email_provider. -/
def provider_table : List (String × String) :=
  [("gmail.com", "Gmail"), ("outlook.com", "Outlook"), ("hotmail.com", "Hotmail"),
   ("yahoo.com", "Yahoo"), ("icloud.com", "iCloud"), ("protonmail.com", "ProtonMail")]

/-- EmailValidator.get_email_provider. -/
def get_email_provider (email : String) : String :=
  if !email.toList.isEmpty && email.toList.contains '@' then
    let domain := (domainOfEmail email).map Char.toLower
    match provider_table.find? (fun p => p.1.toList = domain) with
    | some p => p.2
    | none => "Business Email"
  else "Unknown"

/-- Value of the `domain_age_years` key of a lead dict: absent, a float
(from a successful WHOIS lookup), or the string `'Unknown'` (failed
lookup). -/
inductive DomainAge : Type
  | missing
  | years (q : ℚ)
  | unknownString
deriving DecidableEq

/-- A lead record: the Python dict keys that the pipeline reads or
writes, with `none` / `false` / `[]` / `0` standing for an absent key
wherever the code reads the key through `.get` with that default or only
tests its truthiness. -/
structure Lead : Type where
  url : Option String := none
  company_name : Option String := none
  description : Option String := none
  email : Option String := none
  email_valid : Bool := false
  email_confidence : Nat := 0
  email_status : Option String := none
  email_score : Option Nat := none
  email_provider : Option String := none
  contact_name : Option String := none
  contact_position : Option String := none
  contact_department : Option String := none
  phone : Option String := none
  phone_valid : Bool := false
  tech_stack : List String := []
  domain_age_years : DomainAge := .missing
  registrar : Option String := none
  employee_estimate : Option String := none
  revenue_estimate : Option String := none
  industry : Option String := none
  lead_score : Option Nat := none
  contact_quality : Option ℚ := none
  social_links : List (String × String) := []
  error : Option String := none
deriving DecidableEq

/-- A lead with every key absent. -/
def emptyLead : Lead := {}

/-- Python truthiness of an optional string: present and non-empty. -/
def optTruthy : Option String → Bool
  | some s => !s.toList.isEmpty
  | none => false

/-- DataEnricher.is_valid_phone: reject absent / placeholder values, strip
`\s`, `-`, `(`, `)`, `+`, then require at least ten characters, all
digits. -/
def is_valid_phone (phone : Option String) : Bool :=
  match phone with
  | none => false
  | some p =>
    if p.toList.isEmpty
        || (p.toList.map Char.toUpper) = "N/A".toList
        || (p.toList.map Char.toUpper) = "NONE".toList
        || (p.toList.map Char.toUpper) = "NULL".toList then false
    else
      let cleaned := p.toList.filter
        (fun c => !(isPySpace c || c = '-' || c = '(' || c = ')' || c = '+'))
      decide (10 ≤ cleaned.length) && !cleaned.isEmpty && cleaned.all Char.isDigit

/-- DataEnricher.estimate_employees: additive signal score from tech-stack
size, domain age and social-link count, then bucketed. An absent
`domain_age_years` reads as the int `0` (hence scores 20); the string
`'Unknown'` fails the `isinstance` test and scores nothing. -/
def estimate_employees (lead : Lead) : String :=
  let techScore : Nat :=
    if 5 < lead.tech_stack.length then 100
    else if 3 < lead.tech_stack.length then 50
    else 10
  let ageScore : Nat :=
    match lead.domain_age_years with
    | .years q => if 10 < q then 100 else if 5 < q then 50 else 20
    | .missing => 20
    | .unknownString => 0
  let score := techScore + ageScore + lead.social_links.length * 10
  if 150 < score then "100-500"
  else if 100 < score then "50-100"
  else if 50 < score then "10-50"
  else "1-10"

/-- Revenue table of DataEnricher.estimate_revenue. -/
def revenue_map : List (String × String) :=
  [("1-10", "$0-2M"), ("10-50", "$2M-10M"), ("50-100", "$10M-20M"), ("100-500", "$20M-100M")]

/-- DataEnricher.estimate_revenue: lookup of the employee bucket
(`lead.get('employee_estimate', '1-10')`), defaulting to `'Unknown'`. -/
def estimate_revenue (lead : Lead) : String :=
  let bucket := lead.employee_estimate.getD "1-10"
  match revenue_map.find? (fun p => p.1 = bucket) with
  | some p => p.2
  | none => "Unknown"

/-- Industry keyword table of DataEnricher.classify_industry, in its
declared (and hence iteration) order. -/
def industries_table : List (String × List String) :=
  [("SaaS", ["software", "saas", "cloud", "platform", "api"]),
   ("E-commerce", ["shop", "store", "ecommerce", "retail", "shopify"]),
   ("Finance", ["finance", "bank", "payment", "stripe", "fintech"]),
   ("Marketing", ["marketing", "advertising", "hubspot", "seo"]),
   ("Healthcare", ["health", "medical", "care", "hospital", "clinic"]),
   ("Education", ["education", "learning", "school", "university", "course"]),
   ("Real Estate", ["real estate", "property", "housing", "realty"]),
   ("Technology", ["tech", "software", "it", "development", "react", "angular"])]

/-- Python `' '.join(parts)`. -/
def joinSpaces : List (List Char) → List Char
  | [] => []
  | [p] => p
  | p :: ps => p ++ ' ' :: joinSpaces ps

/-- The text blob DataEnricher.classify_industry scans:
`f"{description} {name} {' '.join(tech_stack)}"` with respectively the
description, the company name and each tech-stack entry lower-cased
(`.get` defaults: empty strings and the empty list). -/
def combinedText (lead : Lead) : List Char :=
  ((lead.description.getD "").toList.map Char.toLower)
    ++ ' ' :: ((lead.company_name.getD "").toList.map Char.toLower)
    ++ ' ' :: joinSpaces (lead.tech_stack.map (fun t => t.toList.map Char.toLower))

/-- Whether one industry row of the keyword table matches a lead: some
keyword of the row occurs in the lead's combined text blob. -/
def rowMatches (lead : Lead) (row : String × List String) : Bool :=
  row.2.any (fun kw => containsSeg kw.toList (combinedText lead))

/-- DataEnricher.classify_industry: the first industry of the table one of
whose keywords occurs in the combined text, else `'General Business'`. -/
def classify_industry (lead : Lead) : String :=
  match industries_table.find? (fun row => rowMatches lead row) with
  | some row => row.1
  | none => "General Business"

/-- Round half to even at integer precision (CPython float rounding on the
exactly-representable multiples of 1/4 these scores produce). -/
def roundHalfEven (x : ℚ) : ℤ :=
  let f := ⌊x⌋
  if x - f < 1/2 then f
  else if 1/2 < x - f then f + 1
  else if f % 2 = 0 then f else f + 1

/-- Python `round(x, 1)` on the exact score values: round half to even at
one decimal. -/
def pyRound1 (x : ℚ) : ℚ :=
  (roundHalfEven (10 * x) : ℚ) / 10

/-- Placeholder descriptions rejected by the contact-quality rating. -/
def placeholder_descriptions : List String :=
  ["No description available", "N/A", ""]

/-- The additive `score` variable of DataEnricher.rate_contact_quality:
+2.5/2/1.5 by confidence tier when the email is valid, +0.75 for a
non-blank contact name, +0.75 for a position or department, +1 for a
valid phone, +0.5 for any social link, +0.5 for a non-placeholder
description. -/
def contact_quality_sum (lead : Lead) : ℚ :=
  (if lead.email_valid then
      (if 90 ≤ lead.email_confidence then 5/2
        else if 70 ≤ lead.email_confidence then 2 else 3/2)
    else 0)
  + (if optTruthy lead.contact_name
        && hasNonSpace (lead.contact_name.getD "").toList then 3/4 else 0)
  + (if optTruthy lead.contact_position || optTruthy lead.contact_department then 3/4 else 0)
  + (if lead.phone_valid then 1 else 0)
  + (if !lead.social_links.isEmpty then 1/2 else 0)
  + (if !(placeholder_descriptions.any (fun d => d = lead.description.getD "")) then 1/2 else 0)

/-- DataEnricher.rate_contact_quality: the additive 0-5 star quality
score, rounded to one decimal and capped at 5. -/
def rate_contact_quality (lead : Lead) : ℚ :=
  min 5 (pyRound1 (contact_quality_sum lead))

/-- "Has valid email? +20" summand of calculate_lead_score. -/
def emailValidBonus (b : Bool) : Nat := if b then 20 else 0

/-- Email-confidence tier summand of calculate_lead_score:
+10 at 90 or above, +5 at 70 or above. -/
def confidenceBonus (c : Nat) : Nat :=
  if 90 ≤ c then 10 else if 70 ≤ c then 5 else 0

/-- "Has phone? +10" summand of calculate_lead_score. -/
def phoneBonus (b : Bool) : Nat := if b then 10 else 0

/-- "Has revenue estimate? +10" summand: the key is truthy and not
`'Unknown'`. -/
def revenueBonus (o : Option String) : Nat :=
  if optTruthy o && o.getD "" ≠ "Unknown" then 10 else 0

/-- "Tech stack identified? +5" summand: the list is truthy with positive
length. -/
def techBonus (l : List String) : Nat := if !l.isEmpty then 5 else 0

/-- "Employee count known? +5" summand: the key is truthy. -/
def employeeBonus (o : Option String) : Nat := if optTruthy o then 5 else 0

/-- "Has contact name? +5" summand: the key is truthy and strips to a
non-empty string. -/
def contactNameBonus (o : Option String) : Nat :=
  if optTruthy o && hasNonSpace (o.getD "").toList then 5 else 0

/-- "Has social links? +5" summand: the value is a dict of positive size. -/
def socialBonus (l : List (String × String)) : Nat := if !l.isEmpty then 5 else 0

/-- calculate_lead_score of app.py: base 50 plus the eight additive
signal bonuses, capped at 100. -/
def calculate_lead_score (lead : Lead) : Nat :=
  min
    (50 + emailValidBonus lead.email_valid
      + confidenceBonus lead.email_confidence
      + phoneBonus lead.phone_valid
      + revenueBonus lead.revenue_estimate
      + techBonus lead.tech_stack
      + employeeBonus lead.employee_estimate
      + contactNameBonus lead.contact_name
      + socialBonus lead.social_links)
    100

/-- Fields of one contact record returned by the email-finder sub-step
(the dict DataEnricher.enrich_lead reads out of `get_best_email`), string
fields read through `.get(key, '')` and the confidence through
`.get('confidence', 0)`. -/
structure EmailData : Type where
  email : Option String := none
  confidence : Nat := 0
  first_name : String := ""
  last_name : String := ""
  position : String := ""
  department : String := ""
deriving DecidableEq

/-- Outcome of the WHOIS sub-step (DataEnricher.get_domain_info): on any
exception the dict `domain_age_years='Unknown'`, otherwise a dict holding
the computed age (when a creation date existed) and the registrar (when
present). -/
inductive WhoisOutcome : Type
  | failure
  | success (age : Option ℚ) (registrar : Option String)
deriving DecidableEq

/-- Step 1 of DataEnricher.enrich_lead: adopt the found contact fields and
re-validate through EmailValidator, or record the not-found defaults. -/
def enrichStepEmail (finderResult : Option EmailData) (dns : DnsOracle) (lead : Lead) : Lead :=
  match finderResult with
  | some ed =>
    match ed.email with
    | some e =>
      if e.toList.isEmpty then
        { lead with email := none, email_valid := false, email_confidence := 0,
                    email_status := some "Not found" }
      else
        { lead with
            email := some e,
            email_confidence := ed.confidence,
            contact_name := some (String.mk (pyStrip (ed.first_name ++ " " ++ ed.last_name).toList)),
            contact_position := some ed.position,
            contact_department := some ed.department,
            email_valid := validate_email dns e,
            email_score := some (get_confidence_score dns e),
            email_provider := some (get_email_provider e) }
    | none =>
      { lead with email := none, email_valid := false, email_confidence := 0,
                  email_status := some "Not found" }
  | none =>
    { lead with email := none, email_valid := false, email_confidence := 0,
                email_status := some "Not found" }

/-- Step 3 of DataEnricher.enrich_lead: `lead.update(domain_info)` with the
dict DataEnricher.get_domain_info returned. -/
def enrichStepWhois (whois : WhoisOutcome) (lead : Lead) : Lead :=
  match whois with
  | .failure => { lead with domain_age_years := .unknownString }
  | .success age registrar =>
    let lead := match age with
      | some q => { lead with domain_age_years := .years q }
      | none => lead
    match registrar with
    | some r => { lead with registrar := some r }
    | none => lead

/-- Step 6 of DataEnricher.enrich_lead: invalid phones are nulled out. -/
def enrichStepPhone (lead : Lead) : Lead :=
  if !is_valid_phone lead.phone then { lead with phone_valid := false, phone := none }
  else { lead with phone_valid := true }

/-- Steps 1-7 of DataEnricher.enrich_lead in their written order, with the
effectful sub-steps (email finder, tech-stack fetch, WHOIS, DNS) given as
oracle results: the non-empty-URL body of the function. -/
def enrich_lead_steps (finderResult : Option EmailData) (dns : DnsOracle)
    (techResult : List String) (whois : WhoisOutcome) (lead : Lead) : Lead :=
  let l1 := enrichStepEmail finderResult dns lead
  let l2 := { l1 with tech_stack := techResult }
  let l3 := enrichStepWhois whois l2
  let l4 := { l3 with employee_estimate := some (estimate_employees l3) }
  let l5 := { l4 with revenue_estimate := some (estimate_revenue l4) }
  let l6 := { l5 with industry := some (classify_industry l5) }
  let l7 := enrichStepPhone l6
  { l7 with contact_quality := some (rate_contact_quality l7) }

/-- Methods defined on the EmailFinder class of email_finder.py. -/
def emailFinderMethods : List String :=
  ["__init__", "_load_api_key", "get_domain_from_url", "domain_search",
   "email_verifier", "email_finder", "get_account_info", "find_emails_for_lead"]

/-- DataEnricher.enrich_lead as called: an empty URL short-circuits and
returns the lead unchanged; otherwise the body starts with
`self.email_finder.get_best_email(url)`, whose attribute lookup succeeds
only if EmailFinder defines that method — when it does not, the call
raises `AttributeError` before any enrichment step runs. -/
def enrich_lead_call (finderResult : Option EmailData) (dns : DnsOracle)
    (techResult : List String) (whois : WhoisOutcome) (lead : Lead) : Except String Lead :=
  if (lead.url.getD "").toList.isEmpty then .ok lead
  else if emailFinderMethods.contains "get_best_email" then
    .ok (enrich_lead_steps finderResult dns techResult whois lead)
  else .error "AttributeError: EmailFinder object has no attribute get_best_email"

/-- URL-scheme normalization at the top of CompanyScraper.scrape_single_url:
prepend `https://` unless the URL already starts with `http://` or
`https://`. -/
def normalizeUrl (url : String) : String :=
  if headMatches "http://".toList url.toList || headMatches "https://".toList url.toList then url
  else "https://" ++ url

/-- Rejoin the pieces of a colon-split. -/
def joinColons : List (List Char) → List Char
  | [] => []
  | [p] => p
  | p :: ps => p ++ ':' :: joinColons ps

/-- Drop a leading `scheme:` from a URL the way `urllib.parse` recognizes
one: a first segment of alphanumeric / `+` / `-` / `.` characters led by a
letter, before a `:`. -/
def dropScheme (l : List Char) : List Char :=
  match splitOnChar ':' l with
  | s :: rest =>
    if !s.isEmpty && (s.headD ' ').isAlpha
        && s.all (fun c => c.isAlpha || c.isDigit || c = '+' || c = '-' || c = '.')
        && !rest.isEmpty then
      joinColons rest
    else l
  | [] => l

/-- The `netloc` and `path` components of `urllib.parse.urlparse`: when
the string after an optional scheme starts with `//`, the netloc runs to
the first `/`, `?` or `#` and the rest is the path; otherwise the netloc
is empty and the path is the remainder up to a `?` or `#`.  CPython's
`urlsplit` validates the netloc it extracted and raises
`ValueError: Invalid IPv6 URL` when the netloc contains `[` without `]`
or `]` without `[`; that error path is part of the embedding. -/
def urlparseParts (url : String) : Except String (List Char × List Char) :=
  let rest := dropScheme url.toList
  match rest with
  | '/' :: '/' :: tail =>
    let netloc := tail.takeWhile (fun c => !(c = '/' || c = '?' || c = '#'))
    let path := (tail.dropWhile (fun c => !(c = '/' || c = '?' || c = '#'))).takeWhile
      (fun c => !(c = '?' || c = '#'))
    if (netloc.contains '[' && !netloc.contains ']')
        || (netloc.contains ']' && !netloc.contains '[') then
      .error "Invalid IPv6 URL"
    else .ok (netloc, path)
  | _ => .ok ([], rest.takeWhile (fun c => !(c = '?' || c = '#')))

/-- Python `str.replace('www.', '')`: remove every (left-to-right,
non-overlapping) occurrence. -/
def dropWWW : List Char → List Char
  | 'w' :: 'w' :: 'w' :: '.' :: rest => dropWWW rest
  | c :: cs => c :: dropWWW cs
  | [] => []

/-- Python `str.title()` restricted to ASCII letters: the first letter of
each letter run upper-cased, the rest lower-cased. -/
def pyTitleGo : Bool → List Char → List Char
  | _, [] => []
  | prevCased, c :: cs =>
    if c.isAlpha then
      (if prevCased then c.toLower else c.toUpper) :: pyTitleGo true cs
    else c :: pyTitleGo false cs

/-- CompanyScraper.get_domain_name: `urlparse` netloc falling back to
path, `www.` removed, truncated at the first dot, title-cased; the
function itself installs no handler, so urlparse's `ValueError`
propagates out of it. -/
def get_domain_name (url : String) : Except String String :=
  match urlparseParts url with
  | .error e => .error e
  | .ok (netloc, path) =>
    let domain := if !netloc.isEmpty then netloc else path
    .ok (String.mk (pyTitleGo false ((dropWWW domain).takeWhile (fun c => c ≠ '.'))))

/-- The fields CompanyScraper.scrape_single_url extracts from a
successfully fetched and parsed page. -/
structure ScrapedFields : Type where
  company_name : String
  email : Option String
  phone : Option String
  description : String
  social_links : List (String × String)
deriving DecidableEq

/-- One fetch-and-extract of the scraper as an oracle: the whole try-block
of scrape_single_url either produces the extracted fields or raises with a
message. -/
def FetchOracle : Type := String → Except String ScrapedFields

/-- CompanyScraper.scrape_single_url: normalize the scheme, fetch and
extract; on any exception in the try-block, build the degraded record
holding only the URL, the domain-derived company name and the error
message.  The except branch itself calls get_domain_name outside any
handler, so a `ValueError` raised there propagates past this boundary. -/
def scrape_single_url (fetch : FetchOracle) (url : String) : Except String Lead :=
  let u := normalizeUrl url
  match fetch u with
  | .ok f =>
    .ok { emptyLead with
        url := some u,
        company_name := some f.company_name,
        email := f.email,
        phone := f.phone,
        description := some f.description,
        social_links := f.social_links }
  | .error e =>
    match get_domain_name u with
    | .ok name =>
      .ok { emptyLead with
          url := some u,
          error := some e,
          company_name := some name }
    | .error ve => .error ve

/-- The per-lead body of background_scrape in app.py after enrichment:
when the enriched lead has a truthy email, re-validate it and overwrite
`email_valid` / `email_confidence` / `email_provider` with the validator's
results. -/
def revalidateEmail (dns : DnsOracle) (lead : Lead) : Lead :=
  match lead.email with
  | some e =>
    if e.toList.isEmpty then lead
    else
      { lead with
          email_valid := validate_email dns e,
          email_confidence := get_confidence_score dns e,
          email_provider := some (get_email_provider e) }
  | none => lead

/-- The record background_scrape hands to Database.insert_lead for one
lead: scrape, enrich (the enrichment steps, with the sub-step calls given
as oracles), re-validate a found email, and attach the lead score.  When
the scrape raises, the exception reaches background_scrape's outer
handler, the job is marked failed and nothing is persisted. -/
def pipelineLead (fetch : FetchOracle) (finderResult : Option EmailData) (dns : DnsOracle)
    (techResult : List String) (whois : WhoisOutcome) (query : String) : Except String Lead :=
  match scrape_single_url fetch query with
  | .error e => .error e
  | .ok raw =>
    let enriched :=
      if (raw.url.getD "").toList.isEmpty then raw
      else enrich_lead_steps finderResult dns techResult whois raw
    let enriched := revalidateEmail dns enriched
    .ok { enriched with lead_score := some (calculate_lead_score enriched) }

/-- A non-empty pattern only matches a non-empty text. -/
theorem headMatches_true_ne_nil (p l : List Char) (hp : p.isEmpty = false)
    (h : headMatches p l = true) : l.isEmpty = false := by
  cases p with
  | nil => simp at hp
  | cons c cs =>
    cases l with
    | nil => simp [headMatches] at h
    | cons d ds => rfl

/-- A format-valid email is non-empty. -/
theorem check_format_ne_empty (email : String) (h : check_format email = true) :
    email.toList.isEmpty = false := by
  cases he : email.toList with
  | nil =>
    exfalso
    unfold check_format at h
    rw [he] at h
    exact absurd h (by decide)
  | cons c cs => rfl

/-- Claim C6: for every email whose domain (as the code computes it) is in
the disposable-domain list, validate_email returns false, whatever the
format check or the DNS oracle say. -/
theorem disposable_email_invalid (dns : DnsOracle) (email : String)
    (h : is_disposable email = true) : validate_email dns email = false := by
  unfold validate_email
  split
  · rfl
  · cases hcf : check_format email <;> simp [hcf, h]

/-- Witness for C6: a well-formed address at `tempmail.com` with working
MX records is still rejected. -/
theorem disposable_email_invalid_witness :
    is_disposable "x@tempmail.com" = true ∧
    validate_email (fun _ => DnsOutcome.records 1) "x@tempmail.com" = false :=
  ⟨by decide, disposable_email_invalid (fun _ => DnsOutcome.records 1) "x@tempmail.com" (by decide)⟩

/-- Claim C8: the confidence score always lies in [0, 100] and is 0 on the
empty (absent) email, for every DNS oracle. -/
theorem confidence_score_in_range (dns : DnsOracle) (email : String) :
    0 ≤ get_confidence_score dns email ∧ get_confidence_score dns email ≤ 100 ∧
    get_confidence_score dns "" = 0 := by
  refine ⟨Nat.zero_le _, ?_, rfl⟩
  unfold get_confidence_score
  split
  · omega
  · exact min_le_left _ _

/-- Counterexample to claim C3 as stated: a DNS timeout is a failure other
than a no-record result, yet the MX check — and with it validate_email on
an address that passes the format and disposable checks — returns false. -/
theorem mx_timeout_counterexample :
    check_mx_record (fun _ => DnsOutcome.timeout) "a@slow.example" = false ∧
    check_format "a@slow.example" = true ∧
    is_disposable "a@slow.example" = false ∧
    validate_email (fun _ => DnsOutcome.timeout) "a@slow.example" = false := by
  decide

/-- Claim C3 as amended: a DNS failure other than NXDOMAIN, NoAnswer and
Timeout (the three resolver errors the code catches and maps to invalid)
degrades to valid, both in the MX check and in validate_email once the
format and disposable checks pass. -/
theorem mx_other_error_degrades_to_valid (dns : DnsOracle) (email : String) (domain : List Char)
    (h1 : (splitOnChar '@' email.toList).get? 1 = some domain)
    (h2 : ∀ d ∈ common_typo_domains, d.toList ≠ domain)
    (h3 : dns domain = DnsOutcome.otherError) :
    check_mx_record dns email = true ∧
    (check_format email = true → is_disposable email = false → validate_email dns email = true) := by
  have htypo : common_typo_domains.any (fun d => d.toList = domain) = false := by
    simp only [List.any_eq_false, decide_eq_true_eq]
    intro d hd
    exact h2 d hd
  have hmx : check_mx_record dns email = true := by
    unfold check_mx_record
    rw [h1]
    dsimp only
    rw [htypo, h3]
    rfl
  refine ⟨hmx, fun hcf hdisp => ?_⟩
  unfold validate_email
  rw [check_format_ne_empty email hcf, hcf, hdisp, hmx]
  rfl

/-- Witness for the amended C3: an address whose domain resolution raises
an unclassified exception validates as deliverable. -/
theorem mx_other_error_degrades_to_valid_witness :
    check_mx_record (fun _ => DnsOutcome.otherError) "john@weird.example" = true ∧
    validate_email (fun _ => DnsOutcome.otherError) "john@weird.example" = true :=
  have h := mx_other_error_degrades_to_valid (fun _ => DnsOutcome.otherError)
    "john@weird.example" "weird.example".toList (by decide) (by decide) rfl
  ⟨h.1, h.2 (by decide) (by decide)⟩

/-- List.find? returns the element at the first index whose predicate
holds. -/
theorem find_first_hit {α : Type} (d : α) (p : α → Bool) :
    ∀ (l : List α) (i : Nat), i < l.length → p (l.getD i d) = true →
      (∀ j, j < i → p (l.getD j d) = false) → l.find? p = some (l.getD i d) := by
  intro l
  induction l with
  | nil =>
    intro i hi
    simp at hi
  | cons a t ih =>
    intro i hi hp hearlier
    cases i with
    | zero =>
      simp only [List.getD_cons_zero] at hp ⊢
      simp [List.find?, hp]
    | succ n =>
      have ha : p a = false := by
        have := hearlier 0 (Nat.succ_pos n)
        simpa using this
      simp only [List.getD_cons_succ] at hp ⊢
      rw [List.find?]
      rw [ha]
      exact ih n (by simpa using hi) hp (fun j hj => by
        have := hearlier (j + 1) (by omega)
        simpa using this)

/-- Claim C7: industry classification returns the earliest-declared row of
the keyword table that matches the lead's combined
description/name/tech-stack text. -/
theorem classify_earliest_match (lead : Lead) (i : Nat)
    (h1 : i < industries_table.length)
    (h2 : rowMatches lead (industries_table.getD i ("", [])) = true)
    (h3 : ∀ j, j < i → rowMatches lead (industries_table.getD j ("", [])) = false) :
    classify_industry lead = (industries_table.getD i ("", [])).1 := by
  unfold classify_industry
  rw [find_first_hit ("", []) (fun row => rowMatches lead row) industries_table i h1 h2 h3]

/-- Witness for C7: a description containing both `software` and `bank`
matches SaaS (declared first) and Finance, and classifies as SaaS. -/
theorem classify_earliest_match_witness :
    rowMatches { description := some "software bank" } (industries_table.getD 0 ("", [])) = true ∧
    rowMatches { description := some "software bank" } (industries_table.getD 2 ("", [])) = true ∧
    classify_industry { description := some "software bank" } = "SaaS" := by
  refine ⟨by decide, by decide, ?_⟩
  have h := classify_earliest_match { description := some "software bank" } 0 (by decide)
    (by decide) (fun j hj => absurd hj (Nat.not_lt_zero j))
  exact h.trans rfl

/-- Claim C10: the score function starts from an unconditional base of 50
and only ever adds, so every lead scores at least 50. -/
theorem lead_score_at_least_fifty (lead : Lead) : 50 ≤ calculate_lead_score lead := by
  unfold calculate_lead_score
  exact le_min (by omega) (by omega)

/-- The email bonus is largest when the email is valid. -/
theorem emailValidBonus_le (b : Bool) : emailValidBonus b ≤ emailValidBonus true := by
  cases b <;> simp [emailValidBonus]

/-- The confidence-tier bonus is monotone in the confidence value. -/
theorem confidenceBonus_mono {c c' : Nat} (h : c ≤ c') :
    confidenceBonus c ≤ confidenceBonus c' := by
  unfold confidenceBonus
  split_ifs <;> omega

/-- The phone bonus is largest when the phone is valid. -/
theorem phoneBonus_le (b : Bool) : phoneBonus b ≤ phoneBonus true := by
  cases b <;> simp [phoneBonus]

/-- Every revenue bonus is at most 10. -/
theorem revenueBonus_le_ten (o : Option String) : revenueBonus o ≤ 10 := by
  unfold revenueBonus
  split <;> omega

/-- A truthy, non-Unknown revenue estimate earns the full 10. -/
theorem revenueBonus_known (r : String) (h1 : optTruthy (some r) = true)
    (h2 : r ≠ "Unknown") : revenueBonus (some r) = 10 := by
  unfold revenueBonus
  rw [if_pos]
  rw [h1]
  simpa using h2

/-- Every tech-stack bonus is at most 5. -/
theorem techBonus_le_five (l : List String) : techBonus l ≤ 5 := by
  unfold techBonus
  split <;> omega

/-- A non-empty tech stack earns the full 5. -/
theorem techBonus_nonempty (l : List String) (h : l ≠ []) : techBonus l = 5 := by
  unfold techBonus
  rw [if_pos]
  simpa using h

/-- Every employee bonus is at most 5. -/
theorem employeeBonus_le_five (o : Option String) : employeeBonus o ≤ 5 := by
  unfold employeeBonus
  split <;> omega

/-- A truthy employee estimate earns the full 5. -/
theorem employeeBonus_known (e : String) (h : optTruthy (some e) = true) :
    employeeBonus (some e) = 5 := by
  unfold employeeBonus
  rw [h]
  rfl

/-- Every contact-name bonus is at most 5. -/
theorem contactNameBonus_le_five (o : Option String) : contactNameBonus o ≤ 5 := by
  unfold contactNameBonus
  split <;> omega

/-- A name with a non-whitespace character earns the full 5. -/
theorem contactNameBonus_nonblank (n : String) (h : hasNonSpace n.toList = true) :
    contactNameBonus (some n) = 5 := by
  have htruthy : optTruthy (some n) = true := by
    unfold optTruthy
    cases hl : n.toList with
    | nil => rw [hasNonSpace, hl] at h; simp at h
    | cons c cs =>
      have hd : n.data = c :: cs := hl
      simp [hd]
  unfold contactNameBonus
  rw [htruthy, Option.getD_some, h]
  rfl

/-- Every social-links bonus is at most 5. -/
theorem socialBonus_le_five (l : List (String × String)) : socialBonus l ≤ 5 := by
  unfold socialBonus
  split <;> omega

/-- A non-empty social-links dict earns the full 5. -/
theorem socialBonus_nonempty (l : List (String × String)) (h : l ≠ []) : socialBonus l = 5 := by
  unfold socialBonus
  rw [if_pos]
  simpa using h

/-- Claim C5: calculate_lead_score never decreases when any single
positive signal is added (all other fields held fixed): making the email
valid, raising the email confidence, making the phone valid, setting a
known revenue estimate, a non-empty tech stack, a truthy employee
estimate, a non-blank contact name, or non-empty social links. -/
theorem lead_score_monotone (lead : Lead) :
    calculate_lead_score lead ≤ calculate_lead_score { lead with email_valid := true } ∧
    (∀ c, lead.email_confidence ≤ c →
      calculate_lead_score lead ≤ calculate_lead_score { lead with email_confidence := c }) ∧
    calculate_lead_score lead ≤ calculate_lead_score { lead with phone_valid := true } ∧
    (∀ r, optTruthy (some r) = true → r ≠ "Unknown" →
      calculate_lead_score lead ≤ calculate_lead_score { lead with revenue_estimate := some r }) ∧
    (∀ ts : List String, ts ≠ [] →
      calculate_lead_score lead ≤ calculate_lead_score { lead with tech_stack := ts }) ∧
    (∀ e, optTruthy (some e) = true →
      calculate_lead_score lead ≤ calculate_lead_score { lead with employee_estimate := some e }) ∧
    (∀ n, hasNonSpace n.toList = true →
      calculate_lead_score lead ≤ calculate_lead_score { lead with contact_name := some n }) ∧
    (∀ sl : List (String × String), sl ≠ [] →
      calculate_lead_score lead ≤ calculate_lead_score { lead with social_links := sl }) := by
  refine ⟨?_, fun c hc => ?_, ?_, fun r h1 h2 => ?_, fun ts hts => ?_, fun e he => ?_,
    fun n hn => ?_, fun sl hsl => ?_⟩ <;>
    simp only [calculate_lead_score] <;> refine min_le_min ?_ le_rfl
  · have := emailValidBonus_le lead.email_valid
    omega
  · have := confidenceBonus_mono hc
    omega
  · have := phoneBonus_le lead.phone_valid
    omega
  · have ha := revenueBonus_le_ten lead.revenue_estimate
    have hb := revenueBonus_known r h1 h2
    omega
  · have ha := techBonus_le_five lead.tech_stack
    have hb := techBonus_nonempty ts hts
    omega
  · have ha := employeeBonus_le_five lead.employee_estimate
    have hb := employeeBonus_known e he
    omega
  · have ha := contactNameBonus_le_five lead.contact_name
    have hb := contactNameBonus_nonblank n hn
    omega
  · have ha := socialBonus_le_five lead.social_links
    have hb := socialBonus_nonempty sl hsl
    omega

/-- Witness for C5: each of the eight signal additions, applied to the
empty lead, keeps the score from decreasing. -/
theorem lead_score_monotone_witness :
    calculate_lead_score emptyLead ≤ calculate_lead_score { emptyLead with email_valid := true } ∧
    calculate_lead_score emptyLead ≤
      calculate_lead_score { emptyLead with email_confidence := 95 } ∧
    calculate_lead_score emptyLead ≤ calculate_lead_score { emptyLead with phone_valid := true } ∧
    calculate_lead_score emptyLead ≤
      calculate_lead_score { emptyLead with revenue_estimate := some "$2M-10M" } ∧
    calculate_lead_score emptyLead ≤
      calculate_lead_score { emptyLead with tech_stack := ["React"] } ∧
    calculate_lead_score emptyLead ≤
      calculate_lead_score { emptyLead with employee_estimate := some "10-50" } ∧
    calculate_lead_score emptyLead ≤
      calculate_lead_score { emptyLead with contact_name := some "Jane Doe" } ∧
    calculate_lead_score emptyLead ≤
      calculate_lead_score { emptyLead with social_links := [("linkedin", "url")] } :=
  have h := lead_score_monotone emptyLead
  ⟨h.1, h.2.1 95 (by decide), h.2.2.1, h.2.2.2.1 "$2M-10M" (by decide) (by decide),
    h.2.2.2.2.1 ["React"] (by decide), h.2.2.2.2.2.1 "10-50" (by decide),
    h.2.2.2.2.2.2.1 "Jane Doe" (by decide), h.2.2.2.2.2.2.2 [("linkedin", "url")] (by decide)⟩

/-- An if-expression between two non-negative rationals is non-negative. -/
theorem ite_nonneg_rat {c : Prop} [Decidable c] {a b : ℚ} (ha : 0 ≤ a) (hb : 0 ≤ b) :
    0 ≤ if c then a else b := by
  split <;> assumption

/-- Half-even rounding of a non-negative rational is non-negative. -/
theorem roundHalfEven_nonneg (x : ℚ) (h : 0 ≤ x) : 0 ≤ roundHalfEven x := by
  have hf : 0 ≤ ⌊x⌋ := Int.floor_nonneg.mpr h
  unfold roundHalfEven
  dsimp only
  split_ifs <;> omega

/-- One-decimal Python rounding of a non-negative value is non-negative. -/
theorem pyRound1_nonneg (q : ℚ) (h : 0 ≤ q) : 0 ≤ pyRound1 q := by
  unfold pyRound1
  apply div_nonneg _ (by norm_num)
  exact_mod_cast roundHalfEven_nonneg (10 * q) (by positivity)

/-- The raw contact-quality sum is non-negative. -/
theorem contact_quality_sum_nonneg (lead : Lead) : 0 ≤ contact_quality_sum lead := by
  unfold contact_quality_sum
  refine add_nonneg (add_nonneg (add_nonneg (add_nonneg (add_nonneg ?_ ?_) ?_) ?_) ?_) ?_
  · exact ite_nonneg_rat
      (ite_nonneg_rat (by norm_num) (ite_nonneg_rat (by norm_num) (by norm_num))) le_rfl
  · exact ite_nonneg_rat (by norm_num) le_rfl
  · exact ite_nonneg_rat (by norm_num) le_rfl
  · exact ite_nonneg_rat (by norm_num) le_rfl
  · exact ite_nonneg_rat (by norm_num) le_rfl
  · exact ite_nonneg_rat (by norm_num) le_rfl

/-- The contact-quality rating lies in [0, 5] for every lead. -/
theorem rate_contact_quality_in_range (lead : Lead) :
    0 ≤ rate_contact_quality lead ∧ rate_contact_quality lead ≤ 5 := by
  unfold rate_contact_quality
  constructor
  · exact le_min (by norm_num) (pyRound1_nonneg _ (contact_quality_sum_nonneg lead))
  · exact min_le_left _ _

/-- The lead score is capped at 100. -/
theorem calculate_lead_score_le_100 (lead : Lead) : calculate_lead_score lead ≤ 100 :=
  min_le_right _ _

/-- Step 1 of the enrichment leaves the URL unchanged. -/
theorem enrichStepEmail_url (fr : Option EmailData) (dns : DnsOracle) (lead : Lead) :
    (enrichStepEmail fr dns lead).url = lead.url := by
  unfold enrichStepEmail
  rcases fr with _ | ed
  · rfl
  · obtain ⟨em, conf, fn, ln, pos, dep⟩ := ed
    rcases em with _ | e
    · rfl
    · dsimp only
      split <;> rfl

/-- Step 3 of the enrichment leaves the URL unchanged. -/
theorem enrichStepWhois_url (w : WhoisOutcome) (lead : Lead) :
    (enrichStepWhois w lead).url = lead.url := by
  unfold enrichStepWhois
  rcases w with _ | ⟨age, reg⟩
  · rfl
  · rcases age with _ | q <;> rcases reg with _ | r <;> rfl

/-- Step 6 of the enrichment leaves the URL unchanged. -/
theorem enrichStepPhone_url (lead : Lead) : (enrichStepPhone lead).url = lead.url := by
  unfold enrichStepPhone
  split <;> rfl

/-- The enrichment steps leave the URL unchanged. -/
theorem enrich_lead_steps_url (fr : Option EmailData) (dns : DnsOracle)
    (tr : List String) (w : WhoisOutcome) (lead : Lead) :
    (enrich_lead_steps fr dns tr w lead).url = lead.url := by
  unfold enrich_lead_steps
  dsimp only
  rw [enrichStepPhone_url, enrichStepWhois_url, enrichStepEmail_url]

/-- App-level email re-validation leaves the URL unchanged. -/
theorem revalidateEmail_url (dns : DnsOracle) (lead : Lead) :
    (revalidateEmail dns lead).url = lead.url := by
  unfold revalidateEmail
  rcases lead.email with _ | e
  · rfl
  · dsimp only
    split <;> rfl

/-- App-level email re-validation leaves the contact quality unchanged. -/
theorem revalidateEmail_quality (dns : DnsOracle) (lead : Lead) :
    (revalidateEmail dns lead).contact_quality = lead.contact_quality := by
  unfold revalidateEmail
  rcases lead.email with _ | e
  · rfl
  · dsimp only
    split <;> rfl

/-- Whenever the scraper does return a record — in the success branch and
in the degraded branch alike — that record carries the normalized URL. -/
theorem scrape_single_url_ok_url (fetch : FetchOracle) (url : String) (p : Lead)
    (h : scrape_single_url fetch url = Except.ok p) : p.url = some (normalizeUrl url) := by
  unfold scrape_single_url at h
  dsimp only at h
  cases hf : fetch (normalizeUrl url) with
  | ok f =>
    rw [hf] at h
    rw [Except.ok.injEq] at h
    rw [← h]
  | error e =>
    rw [hf] at h
    cases hg : get_domain_name (normalizeUrl url) with
    | ok name =>
      rw [hg] at h
      rw [Except.ok.injEq] at h
      rw [← h]
    | error ve =>
      rw [hg] at h
      exact absurd h (by simp)

/-- A normalized URL is a non-empty string. -/
theorem normalizeUrl_ne_empty (url : String) : (normalizeUrl url).toList.isEmpty = false := by
  unfold normalizeUrl
  split
  next h =>
    rcases Bool.or_eq_true_iff.mp h with h' | h'
    · exact headMatches_true_ne_nil "http://".toList url.toList (by decide) h'
    · exact headMatches_true_ne_nil "https://".toList url.toList (by decide) h'
  next h =>
    have : ("https://" ++ url).data = "https://".data ++ url.data := String.data_append ..
    simp [String.toList, this]

/-- Claim C4: every record the pipeline persists — whenever the scrape
did not raise and a record was handed to the database — has a non-null
URL, a lead score in [0, 100], and a contact quality in [0, 5]; the score
function is bounded by 100 (and, being a Nat, by 0 below) and the rating
function by [0, 5] on every input lead. -/
theorem persisted_lead_invariants (fetch : FetchOracle) (fr : Option EmailData)
    (dns : DnsOracle) (tr : List String) (w : WhoisOutcome) (query : String) :
    (∀ p : Lead, pipelineLead fetch fr dns tr w query = Except.ok p →
      p.url ≠ none ∧
      (∃ s, p.lead_score = some s ∧ s ≤ 100) ∧
      (∃ q, p.contact_quality = some q ∧ 0 ≤ q ∧ q ≤ 5)) ∧
    (∀ lead : Lead,
      calculate_lead_score lead ≤ 100 ∧
      0 ≤ rate_contact_quality lead ∧ rate_contact_quality lead ≤ 5) := by
  refine ⟨fun p hp => ?_, fun lead =>
    ⟨calculate_lead_score_le_100 lead, (rate_contact_quality_in_range lead).1,
      (rate_contact_quality_in_range lead).2⟩⟩
  unfold pipelineLead at hp
  cases hs : scrape_single_url fetch query with
  | error e =>
    rw [hs] at hp
    exact absurd hp (by simp)
  | ok raw =>
    rw [hs] at hp
    dsimp only at hp
    rw [Except.ok.injEq] at hp
    have hraw : raw.url = some (normalizeUrl query) :=
      scrape_single_url_ok_url fetch query raw hs
    have hguard : (raw.url.getD "").toList.isEmpty = false := by
      rw [hraw, Option.getD_some]
      exact normalizeUrl_ne_empty query
    refine ⟨?_, ?_, ?_⟩
    · have hurl : p.url = some (normalizeUrl query) := by
        rw [← hp]
        dsimp only
        rw [revalidateEmail_url, hguard]
        show (enrich_lead_steps fr dns tr w raw).url = some (normalizeUrl query)
        rw [enrich_lead_steps_url]
        exact hraw
      rw [hurl]
      exact Option.some_ne_none _
    · have hls : p.lead_score = some (calculate_lead_score (revalidateEmail dns
          (if (raw.url.getD "").toList.isEmpty = true then raw
            else enrich_lead_steps fr dns tr w raw))) := by
        rw [← hp]
      exact ⟨_, hls, calculate_lead_score_le_100 _⟩
    · have hq : p.contact_quality = (enrich_lead_steps fr dns tr w raw).contact_quality := by
        rw [← hp]
        dsimp only
        rw [revalidateEmail_quality, hguard]
        rfl
      rw [hq]
      exact ⟨_, rfl, (rate_contact_quality_in_range _).1, (rate_contact_quality_in_range _).2⟩

/-- The record the pipeline persists for `example.com` when the fetch
times out, email discovery finds nothing, tech detection yields
`["Unknown"]` and WHOIS fails. -/
def examplePersisted : Lead :=
  match pipelineLead (fun _ => Except.error "timeout") none (fun _ => DnsOutcome.otherError)
      ["Unknown"] WhoisOutcome.failure "example.com" with
  | .ok p => p
  | .error _ => emptyLead

/-- Witness for C4: the pipeline record persisted for `example.com` under
the concrete failing oracles satisfies all three invariants. -/
theorem persisted_lead_invariants_witness :
    examplePersisted.url ≠ none ∧
    (∃ s, examplePersisted.lead_score = some s ∧ s ≤ 100) ∧
    (∃ q, examplePersisted.contact_quality = some q ∧ 0 ≤ q ∧ q ≤ 5) :=
  (persisted_lead_invariants (fun _ => Except.error "timeout") none
      (fun _ => DnsOutcome.otherError) ["Unknown"] WhoisOutcome.failure "example.com").1
    examplePersisted rfl

/-- The raw input lead of the end-to-end scenario of the spec. -/
def exampleCorpRaw : Lead :=
  { url := some "https://example-corp.test",
    company_name := some "Example Corp",
    description := some "cloud software platform" }

/-- The scenario lead after enrichment and scoring: email discovery finds
nothing, tech-stack detection yields `["Unknown"]`, WHOIS fails, no phone
is present; then the app-level re-validation (skipped, no email) and the
lead score are applied as in background_scrape. -/
def exampleCorpScored : Lead :=
  let enriched := enrich_lead_steps none (fun _ => DnsOutcome.otherError)
    ["Unknown"] WhoisOutcome.failure exampleCorpRaw
  let enriched := revalidateEmail (fun _ => DnsOutcome.otherError) enriched
  { enriched with lead_score := some (calculate_lead_score enriched) }

/-- Counterexample to claim C2 as stated: on the spec's end-to-end
scenario the computed lead score is 70 (base 50, +10 known revenue
estimate, +5 tech stack, +5 employee estimate), not the claimed 55. -/
theorem example_corp_score_not_55 :
    exampleCorpScored.lead_score = some 70 ∧ exampleCorpScored.lead_score ≠ some 55 := by
  decide

/-- Claim C2 as amended: the scenario lead carries exactly the claimed
enrichment values, with lead_score 70 in place of 55. -/
theorem example_corp_scenario :
    exampleCorpScored.email = none ∧
    exampleCorpScored.email_valid = false ∧
    exampleCorpScored.email_confidence = 0 ∧
    exampleCorpScored.industry = some "SaaS" ∧
    exampleCorpScored.employee_estimate = some "1-10" ∧
    exampleCorpScored.revenue_estimate = some "$0-2M" ∧
    exampleCorpScored.phone_valid = false ∧
    exampleCorpScored.contact_quality = some (1/2 : ℚ) ∧
    exampleCorpScored.lead_score = some 70 := by
  refine ⟨by decide, by decide, by decide, by decide, by decide, by decide, by decide, ?_,
    by decide⟩
  have hred : exampleCorpScored.contact_quality
      = some (min 5 (pyRound1 ((0 : ℚ) + 0 + 0 + 0 + 0 + 1/2))) := rfl
  rw [hred]
  have hsum : ((0 : ℚ) + 0 + 0 + 0 + 0 + 1/2) = 1/2 := by norm_num
  rw [hsum]
  have h10 : (10 * (1/2 : ℚ)) = ((5 : ℤ) : ℚ) := by norm_num
  simp only [pyRound1, roundHalfEven]
  rw [h10, Int.floor_intCast]
  rw [if_pos (by norm_num)]
  norm_num

/-- Claim C1, the failing behaviour: on any lead with a non-empty URL the
enrichment body's first step resolves `get_best_email` on EmailFinder,
which defines no such method, so the call raises instead of returning the
enriched lead. -/
theorem enrich_lead_raises_attribute_error :
    enrich_lead_call none (fun _ => DnsOutcome.otherError) ["Unknown"] WhoisOutcome.failure
        { emptyLead with url := some "https://example.com" }
      = Except.error "AttributeError: EmailFinder object has no attribute get_best_email" := by
  rfl

/-- Counterexample to claim C9 as stated: for the input `[test` — whose
normalization `https://[test` puts an unbalanced bracket in the netloc —
a failing fetch does not produce a degraded record: the except branch's
get_domain_name hits urlparse's `ValueError: Invalid IPv6 URL`, which
propagates past the scrape_single_url boundary. -/
theorem scrape_bracket_url_raises :
    scrape_single_url (fun _ => Except.error "fetch failed") "[test"
      = Except.error "Invalid IPv6 URL" := by
  rfl

/-- Claim C9 as amended: whenever the fetch-and-parse of the page fails
and the domain-name derivation itself succeeds (the normalized URL's
netloc has no unbalanced bracket), the scraper returns the degraded
record holding exactly the normalized URL, the domain-derived company
name and the error message, with every other field absent; on an
unbalanced bracket, urlparse's ValueError instead escapes the boundary. -/
theorem scrape_failure_degrades (fetch : FetchOracle) (url msg name : String)
    (h : fetch (normalizeUrl url) = Except.error msg)
    (hname : get_domain_name (normalizeUrl url) = Except.ok name) :
    scrape_single_url fetch url =
      Except.ok { emptyLead with
          url := some (normalizeUrl url),
          company_name := some name,
          error := some msg } := by
  unfold scrape_single_url
  dsimp only
  rw [h, hname]

/-- Witness for the amended C9: a timed-out fetch of `example.com` yields
the degraded record with company name `Example`. -/
theorem scrape_failure_degrades_witness :
    scrape_single_url (fun _ => Except.error "timeout") "example.com" =
      Except.ok { emptyLead with
          url := some "https://example.com",
          company_name := some "Example",
          error := some "timeout" } :=
  scrape_failure_degrades (fun _ => Except.error "timeout") "example.com" "timeout" "Example"
    rfl (by rfl)
